import Mathlib

/-!
Verification development for the appointment scheduler's normalization core
(`app/normalize_module.py`) and guardrail decision layer (`app/utils.py`).

Modelling conventions:
* Python `str` is modelled as `List Char` (`Str`).  `str.lower()` is modelled
  by `Char.toLower` (the phrases of interest are ASCII).
* Python `datetime` values are modelled by `PyDateTime`: a linear day number
  (`Int`, day 0 is a Monday, matching `datetime.weekday()` with Monday = 0)
  plus a time of day at second granularity.  All instants live in the single
  fixed operational zone Asia/Kolkata, so `KOLKATA.localize` is the identity
  on wall-clock values and `<` is the lexicographic wall-clock order.
* The external `dateparser` capability is an oracle `DP` passed explicitly:
  `parseDefault` models `dateparser.parse(phrase, settings=...)` with the
  default date order, `parseDMY` the retry with `DATE_ORDER = 'DMY'`, and
  `parseBare` the unconstrained `dateparser.parse(time_phrase)` fallback.
* `datetime.now(KOLKATA)` (line 93 of the source) is modelled as the explicit
  parameter `now` of `normalize`.
-/

namespace Appt

/-- Model of Python `str`: a list of characters. -/
abbrev Str := List Char

/-- Python truthiness of an optional string: `None` and `""` are falsy. -/
def truthy : Option Str → Bool
  | none => false
  | some s => !s.isEmpty

/-- Python `\s` / `str.strip()` whitespace, restricted to the ASCII set. -/
def pyIsSpace (c : Char) : Bool :=
  c = ' ' || c = '\t' || c = '\n' || c = '\r' || c = '\x0b' || c = '\x0c'

/-- Python `str.lower()` (ASCII). -/
def pyLower (s : Str) : Str := s.map Char.toLower

/-- Accumulator-style worker for `pySplit`. -/
def splitAcc : Str → Str → List Str
  | [], acc => if acc.isEmpty then [] else [acc.reverse]
  | c :: t, acc =>
    if pyIsSpace c then
      if acc.isEmpty then splitAcc t [] else acc.reverse :: splitAcc t []
    else splitAcc t (c :: acc)

/-- Python `str.split()`: split on whitespace runs, dropping empty pieces. -/
def pySplit (s : Str) : List Str := splitAcc s []

/-- Drop leading whitespace characters. -/
def dropLeadingWS : Str → Str
  | [] => []
  | c :: t => if pyIsSpace c then dropLeadingWS t else c :: t

/-- Python `str.strip()`. -/
def pyStrip (s : Str) : Str :=
  ((dropLeadingWS s).reverse |> dropLeadingWS).reverse

/-- Python `re.sub(r'^at\s+', '', s)`: remove a leading `at` followed by a
(maximal, nonempty) whitespace run. -/
def stripLeadingAt (s : Str) : Str :=
  match s with
  | 'a' :: 't' :: c :: t => if pyIsSpace c then dropLeadingWS t else s
  | _ => s

/-- Numeric value of an ASCII digit character. -/
def digitVal (c : Char) : Nat := c.toNat - 48

/-- Time of day (Python `datetime.time`, at second granularity; the source
never manipulates sub-second components observably). -/
structure Tod where
  hour : Nat
  minute : Nat
  second : Nat
deriving DecidableEq, Repr

/-- A timezone-aware instant in the fixed Asia/Kolkata zone: a linear day
number (day 0 is a Monday) plus a time of day. -/
structure PyDateTime where
  day : Int
  tod : Tod
deriving DecidableEq, Repr

/-- Python `datetime.weekday()`: Monday = 0 ... Sunday = 6. -/
def pyWeekday (d : PyDateTime) : Nat := (d.day % 7).toNat

/-- Python `dt + timedelta(days=n)`. -/
def addDays (d : PyDateTime) (n : Int) : PyDateTime := ⟨d.day + n, d.tod⟩

/-- Lexicographic order on times of day. -/
def todLt (a b : Tod) : Bool :=
  decide (a.hour < b.hour) ||
    (decide (a.hour = b.hour) &&
      (decide (a.minute < b.minute) ||
        (decide (a.minute = b.minute) && decide (a.second < b.second))))

/-- Python `<` on two aware datetimes in the same zone: wall-clock order. -/
def dtLt (a b : PyDateTime) : Bool :=
  decide (a.day < b.day) || (decide (a.day = b.day) && todLt a.tod b.tod)

/-- The lookup `{day.lower(): i for i, day in enumerate(calendar.day_name)}`. -/
def weekdayIndex (w : Str) : Option Nat :=
  if w = ("monday").data then some 0
  else if w = ("tuesday").data then some 1
  else if w = ("wednesday").data then some 2
  else if w = ("thursday").data then some 3
  else if w = ("friday").data then some 4
  else if w = ("saturday").data then some 5
  else if w = ("sunday").data then some 6
  else none

/-- `_get_next_weekday` (source lines 11-16): next occurrence of `weekday`
on or after `currentDate`, pushed a week out when the offset is ≤ 0. -/
def getNextWeekday (currentDate : PyDateTime) (weekday : Nat) : PyDateTime :=
  let daysAhead : Int := (weekday : Int) - (pyWeekday currentDate : Int)
  let daysAhead := if daysAhead ≤ 0 then daysAhead + 7 else daysAhead
  addDays currentDate daysAhead

/-- `_parse_relative_day` (source lines 18-32): two-token phrases
`next <weekday>` / `this <weekday>`, case-insensitive. -/
def parseRelativeDay (phrase : Str) (baseDt : PyDateTime) : Option PyDateTime :=
  let lowered := pyLower phrase
  match pySplit lowered with
  | [w0, w1] =>
    if w0 = ("next").data ∨ w0 = ("this").data then
      match weekdayIndex w1 with
      | some weekday =>
        let dt := getNextWeekday baseDt weekday
        let dt :=
          if w0 = ("next").data ∧ pyWeekday baseDt = weekday then addDays dt 7
          else dt
        some dt
      | none => none
    else none
  | _ => none

/-- Which meridiem letter starts an `am` / `pm` suffix. -/
def ampmOf : Char → Option Bool
  | 'a' => some false
  | 'p' => some true
  | _ => none

/-- The regex `^\d{1,2}(?:am|pm)$`: hour digits and the pm flag. -/
def matchFmt1 : Str → Option (Nat × Bool)
  | [d1, a, 'm'] =>
    if d1.isDigit then (ampmOf a).map (fun pm => (digitVal d1, pm)) else none
  | [d1, d2, a, 'm'] =>
    if d1.isDigit && d2.isDigit then
      (ampmOf a).map (fun pm => (10 * digitVal d1 + digitVal d2, pm))
    else none
  | _ => none

/-- The regex `^\d{1,2}:\d{2}(?:am|pm)$`: hour, minute and the pm flag. -/
def matchFmt2 : Str → Option (Nat × Nat × Bool)
  | [d1, ':', m1, m2, a, 'm'] =>
    if d1.isDigit && m1.isDigit && m2.isDigit then
      (ampmOf a).map (fun pm => (digitVal d1, 10 * digitVal m1 + digitVal m2, pm))
    else none
  | [d1, d2, ':', m1, m2, a, 'm'] =>
    if d1.isDigit && d2.isDigit && m1.isDigit && m2.isDigit then
      (ampmOf a).map
        (fun pm => (10 * digitVal d1 + digitVal d2, 10 * digitVal m1 + digitVal m2, pm))
    else none
  | _ => none

/-- The regex `^\d{2}:\d{2}$`: hour and minute. -/
def matchFmt3 : Str → Option (Nat × Nat)
  | [h1, h2, ':', m1, m2] =>
    if h1.isDigit && h2.isDigit && m1.isDigit && m2.isDigit then
      some (10 * digitVal h1 + digitVal h2, 10 * digitVal m1 + digitVal m2)
    else none
  | _ => none

/-- CPython `%p` handling in `_strptime`: `pm` lifts 1-11 by 12, `12am` is 0. -/
def hour12To24 (h : Nat) (pm : Bool) : Nat :=
  if pm then (if h = 12 then 12 else h + 12)
  else (if h = 12 then 0 else h)

/-- `datetime.strptime(s, "%I%p")` on a regex-accepted string: `%I` only
accepts hours 1-12 (otherwise `ValueError`, and the loop continues). -/
def strptimeFmt1 (p : Nat × Bool) : Option Tod :=
  if 1 ≤ p.1 ∧ p.1 ≤ 12 then some ⟨hour12To24 p.1 p.2, 0, 0⟩ else none

/-- `datetime.strptime(s, "%I:%M%p")`: hour 1-12, minute 0-59. -/
def strptimeFmt2 (p : Nat × Nat × Bool) : Option Tod :=
  if 1 ≤ p.1 ∧ p.1 ≤ 12 ∧ p.2.1 ≤ 59 then
    some ⟨hour12To24 p.1 p.2.2, p.2.1, 0⟩
  else none

/-- `datetime.strptime(s, "%H:%M")`: hour 0-23, minute 0-59. -/
def strptimeFmt3 (p : Nat × Nat) : Option Tod :=
  if p.1 ≤ 23 ∧ p.2 ≤ 59 then some ⟨p.1, p.2, 0⟩ else none

/-- `_parse_time` (source lines 34-59): lower-case, strip, drop a leading
`at `, drop spaces, then try the three (regex, strptime) pairs in order; a
pattern whose strptime raises falls through to the next pattern. -/
def parseTime (timeStr : Str) : Option Tod :=
  let s0 := pyStrip (pyLower timeStr)
  let s1 := stripLeadingAt s0
  let s2 := s1.filter (fun c => c ≠ ' ')
  match (matchFmt1 s2).bind strptimeFmt1 with
  | some t => some t
  | none =>
    match (matchFmt2 s2).bind strptimeFmt2 with
    | some t => some t
    | none => (matchFmt3 s2).bind strptimeFmt3

example : parseTime (("3pm").data) = some ⟨15, 0, 0⟩ := by decide
example : parseTime (("at 3:30PM").data) = some ⟨15, 30, 0⟩ := by decide
example : parseTime (("15:00").data) = some ⟨15, 0, 0⟩ := by decide
example : parseTime (("whenever").data) = none := by decide
example : parseTime (("13pm").data) = none := by decide
example : parseTime (("12am").data) = some ⟨0, 0, 0⟩ := by decide
example : parseTime (("9:30").data) = none := by decide

/-- The external `dateparser` capability, passed explicitly as an oracle.
`parseDefault` is `dateparser.parse(phrase, settings=...)` with the default
date order, `parseDMY` the retry with `DATE_ORDER = 'DMY'` added, and
`parseBare` the settings-free `dateparser.parse(time_phrase)` fallback. -/
structure DP where
  parseDefault : Str → PyDateTime → Option PyDateTime
  parseDMY : Str → PyDateTime → Option PyDateTime
  parseBare : Str → Option PyDateTime

/-- `_parse_with_base` (source lines 61-86): reject falsy phrases, try the
relative-weekday resolver, then the external capability twice. -/
def parseWithBase (dp : DP) (phrase : Option Str) (baseDt : PyDateTime) :
    Option PyDateTime :=
  match phrase with
  | none => none
  | some p =>
    if p.isEmpty then none
    else
      match parseRelativeDay p baseDt with
      | some dt => some dt
      | none =>
        match dp.parseDefault p baseDt with
        | some dt => some dt
        | none => dp.parseDMY p baseDt

/-- `DEFAULT_TIME = "09:00"` parsed by `strptime` (source lines 9 and 111). -/
def DEFAULT_TIME : Tod := ⟨9, 0, 0⟩

/-- The time-resolution block of `normalize` (source lines 98-111): absent or
falsy phrase gives the default, else `_parse_time`, else the settings-free
`dateparser.parse` fallback, taking its `.time()` component. -/
def resolveTime (dp : DP) (timePhrase : Option Str) : Option Tod :=
  match timePhrase with
  | none => some DEFAULT_TIME
  | some tp =>
    if tp.isEmpty then some DEFAULT_TIME
    else
      match parseTime tp with
      | some t => some t
      | none => (dp.parseBare tp).map PyDateTime.tod

/-- Substring test, modelling Python `pat in s`. -/
def containsSub (pat : Str) : Str → Bool
  | [] => pat.isEmpty
  | c :: t => pat.isPrefixOf (c :: t) || containsSub pat t

/-- The inner rollover guard (source line 121):
`date_phrase and 'next' not in date_phrase.lower()`. -/
def noNextCond (datePhrase : Option Str) : Bool :=
  match datePhrase with
  | none => false
  | some p => !p.isEmpty && !containsSub (("next").data) (pyLower p)

/-- Two-digit zero-padded rendering used by `strftime("%H:%M")`. -/
def twoDigits (n : Nat) : Str := [Nat.digitChar (n / 10), Nat.digitChar (n % 10)]

/-- `final_dt.time().strftime("%H:%M")`. -/
def formatHHMM (t : Tod) : Str := twoDigits t.hour ++ [':'] ++ twoDigits t.minute

/-- The `normalized` dict built at source lines 124-130.  The `date` field is
`final_dt.date().isoformat()`; ISO rendering is injective on calendar dates,
so the model keeps the linear day number. -/
structure NormalizedPayload where
  date : Int
  time : Str
  tz : Str
deriving DecidableEq, Repr

/-- The two dict shapes `normalize` returns: a needs-clarification record or
a normalized payload with `normalization_confidence`. -/
inductive NormOutput where
  | clarify (message : Str)
  | ok (normalized : NormalizedPayload) (confidence : Rat)
deriving DecidableEq, Repr

/-- The float literal `0.9` of source line 130, as the rational 9/10 (given
in lowest terms so that kernel evaluation of equality tests succeeds). -/
def NORMALIZATION_CONFIDENCE : Rat := ⟨9, 10, by decide, by decide⟩

/-- The rollover step (source lines 119-122): if the combined instant is
strictly before `now` and the date phrase is truthy without the substring
`next`, push the instant forward by exactly 7 days, once. -/
def applyRollover (datePhrase : Option Str) (now finalDt : PyDateTime) :
    PyDateTime :=
  if dtLt finalDt now then
    if noNextCond datePhrase then addDays finalDt 7 else finalDt
  else finalDt

/-- `normalize` (source lines 88-131).  The source reads
`now = datetime.now(KOLKATA)` at line 93; that ambient-clock reading is the
explicit parameter `now` here. -/
def normalize (dp : DP) (datePhrase timePhrase : Option Str) (now : PyDateTime) :
    NormOutput :=
  let parsedDate := parseWithBase dp datePhrase now
  match resolveTime dp timePhrase with
  | none => .clarify (("Invalid time format").data)
  | some timePart =>
    match parsedDate with
    | none => .clarify (("Invalid or missing date").data)
    | some pd =>
      let finalDt := applyRollover datePhrase now ⟨pd.day, timePart⟩
      .ok ⟨finalDt.day, formatHHMM finalDt.tod, ("Asia/Kolkata").data⟩
        NORMALIZATION_CONFIDENCE

/-- The `entities` dict produced by `extract_entities_from_text`. -/
structure Entities where
  date_phrase : Option Str
  time_phrase : Option Str
  department : Option Str
deriving DecidableEq, Repr

/-- The `entities_result` dict: `entities_result.get('entities', {})` turns a
missing key into an empty dict, hence `Option`. -/
structure EntitiesResult where
  entities : Option Entities
  entities_confidence : Rat
deriving DecidableEq, Repr

/-- `ents.get('department')` through the possibly-missing `entities` dict. -/
def EntitiesResult.department (er : EntitiesResult) : Option Str :=
  er.entities.bind Entities.department

/-- The dict fields `apply_guardrails_and_build` inspects on its
`normalization_result` argument. -/
structure PyNormResult where
  status : Option Str
  message : Option Str
  normalized : Option NormalizedPayload
deriving DecidableEq, Repr

/-- The dict each `NormOutput` shape actually carries: a clarification has
`status` and `message` and no `normalized` key; a success has `normalized`
(and its confidence) and neither `status` nor `message`. -/
def NormOutput.toResult : NormOutput → PyNormResult
  | .clarify m => ⟨some (("needs_clarification").data), some m, none⟩
  | .ok p _ => ⟨none, none, some p⟩

/-- `ocr_result` (unused by the guardrail body, but part of its signature). -/
structure OcrResult where
  raw_text : Str
  confidence : Rat
deriving DecidableEq, Repr

/-- The final dicts of `apply_guardrails_and_build`: a clarification (whose
message is `normalization_result.get('message')`, hence possibly `None`) or
the `{"appointment": ..., "status": "ok"}` record. -/
inductive FinalResult where
  | clarify (message : Option Str)
  | ok (department : Str) (date : Int) (time : Str) (tz : Str)
deriving DecidableEq, Repr

/-- `apply_guardrails_and_build` (source `app/utils.py` lines 5-26). -/
def applyGuardrailsAndBuild (ocrResult : OcrResult) (entitiesResult : EntitiesResult)
    (normalizationResult : PyNormResult) : FinalResult :=
  let _ := ocrResult
  if normalizationResult.status = some (("needs_clarification").data) then
    .clarify normalizationResult.message
  else
    match entitiesResult.department with
    | some d =>
      if d.isEmpty then .clarify (some (("Ambiguous or missing department").data))
      else
        match normalizationResult.normalized with
        | none => .clarify (some (("Ambiguous or missing date/time").data))
        | some p => .ok d p.date p.time p.tz
    | none => .clarify (some (("Ambiguous or missing department").data))

/-- Oracle that finds nothing: every external parse attempt fails. -/
def dpNone : DP := ⟨fun _ _ => none, fun _ _ => none, fun _ => none⟩

/-- Oracle mapping every date phrase to yesterday relative to day 0
(midnight of day -1), as `dateparser` does for the phrase `yesterday` when
the reference instant lies on day 0. -/
def dpYesterday : DP :=
  ⟨fun _ _ => some ⟨-1, ⟨0, 0, 0⟩⟩, fun _ _ => none, fun _ => none⟩

example :
    normalize dpNone (some (("this monday").data)) (some (("3pm").data))
      ⟨0, ⟨12, 0, 0⟩⟩ =
    .ok ⟨7, ("15:00").data, ("Asia/Kolkata").data⟩ NORMALIZATION_CONFIDENCE := by
  decide

example :
    normalize dpYesterday (some (("yesterday").data)) none ⟨0, ⟨12, 0, 0⟩⟩ =
    .ok ⟨6, ("09:00").data, ("Asia/Kolkata").data⟩ NORMALIZATION_CONFIDENCE := by
  decide

example :
    normalize dpNone (some (("gibberish").data)) (some (("3pm").data))
      ⟨0, ⟨12, 0, 0⟩⟩ =
    .clarify (("Invalid or missing date").data) := by decide

example :
    normalize dpNone none (some (("whenever").data)) ⟨0, ⟨12, 0, 0⟩⟩ =
    .clarify (("Invalid time format").data) := by decide

/-- A weekday index found in the name table is below 7. -/
theorem weekdayIndex_bound {w : Str} {wd : Nat} (h : weekdayIndex w = some wd) :
    wd < 7 := by
  unfold weekdayIndex at h
  split_ifs at h <;> simp_all <;> omega

/-- `_get_next_weekday` keeps the time of day (it only adds whole days). -/
theorem getNextWeekday_tod (base : PyDateTime) (wd : Nat) :
    (getNextWeekday base wd).tod = base.tod := by
  simp only [getNextWeekday, addDays]

/-- `_get_next_weekday` lands on the requested weekday, strictly in the
future and at most 7 days out. -/
theorem getNextWeekday_day (base : PyDateTime) (wd : Nat) (hwd : wd < 7) :
    pyWeekday (getNextWeekday base wd) = wd ∧
      base.day < (getNextWeekday base wd).day ∧
      (getNextWeekday base wd).day ≤ base.day + 7 := by
  simp only [getNextWeekday, addDays, pyWeekday]
  split_ifs with h <;> omega

/-- Characterization of `_parse_relative_day` on a phrase whose lowered
token list is a recognized qualifier followed by a weekday name. -/
theorem parseRelativeDay_eq (p q w : Str) (base : PyDateTime) (wd : Nat)
    (hsplit : pySplit (pyLower p) = [q, w])
    (hq : q = ("next").data ∨ q = ("this").data)
    (hw : weekdayIndex w = some wd) :
    parseRelativeDay p base =
      some (if q = ("next").data ∧ pyWeekday base = wd
            then addDays (getNextWeekday base wd) 7
            else getNextWeekday base wd) := by
  simp only [parseRelativeDay, hsplit, hw, if_pos hq]

/-- C2: when the reference day already is the named weekday, the phrase
`next <that weekday>` resolves to the occurrence 14 days after the
reference date, not 7. -/
theorem next_same_weekday_adds_14 (p w : Str) (base : PyDateTime) (wd : Nat)
    (hsplit : pySplit (pyLower p) = [("next").data, w])
    (hw : weekdayIndex w = some wd)
    (hbase : pyWeekday base = wd) :
    parseRelativeDay p base = some (addDays base 14) := by
  rw [parseRelativeDay_eq p (("next").data) w base wd hsplit (Or.inl rfl) hw]
  rw [if_pos ⟨rfl, hbase⟩]
  simp only [getNextWeekday, addDays, hbase]
  rw [if_pos (show (wd : Int) - (wd : Nat) ≤ 0 by omega)]
  simp only [Option.some.injEq, PyDateTime.mk.injEq]
  exact ⟨by omega, trivial⟩

/-- C3: every `next <weekday>` / `this <weekday>` phrase resolves to a date
whose weekday is the named one, strictly after the reference date. -/
theorem relative_day_future (p q w : Str) (base : PyDateTime) (wd : Nat)
    (hsplit : pySplit (pyLower p) = [q, w])
    (hq : q = ("next").data ∨ q = ("this").data)
    (hw : weekdayIndex w = some wd) :
    ∃ r, parseRelativeDay p base = some r ∧
      pyWeekday r = wd ∧ base.day < r.day := by
  have hwd := weekdayIndex_bound hw
  have hday := getNextWeekday_day base wd hwd
  rw [parseRelativeDay_eq p q w base wd hsplit hq hw]
  by_cases hc : q = ("next").data ∧ pyWeekday base = wd
  · rw [if_pos hc]
    refine ⟨_, rfl, ?_, ?_⟩
    · have h1 := hday.1
      simp only [pyWeekday, addDays] at h1 ⊢
      omega
    · have h2 := hday.2.1
      simp only [addDays]
      omega
  · rw [if_neg hc]
    exact ⟨_, rfl, hday.1, hday.2.1⟩

/-- Witness for `next_same_weekday_adds_14`: reference day 0 is a Monday and
the phrase is `Next Monday`. -/
theorem next_same_weekday_adds_14_witness :
    pySplit (pyLower (("Next Monday").data)) = [("next").data, ("monday").data] ∧
    weekdayIndex (("monday").data) = some 0 ∧
    pyWeekday ⟨0, ⟨12, 0, 0⟩⟩ = 0 ∧
    parseRelativeDay (("Next Monday").data) ⟨0, ⟨12, 0, 0⟩⟩ =
      some (addDays ⟨0, ⟨12, 0, 0⟩⟩ 14) :=
  ⟨by decide, by decide, by decide,
    next_same_weekday_adds_14 (("Next Monday").data) (("monday").data)
      ⟨0, ⟨12, 0, 0⟩⟩ 0 (by decide) (by decide) (by decide)⟩

/-- Witness for `relative_day_future`: `this Friday` against a Wednesday. -/
theorem relative_day_future_witness :
    ∃ r, parseRelativeDay (("this Friday").data) ⟨2, ⟨12, 0, 0⟩⟩ = some r ∧
      pyWeekday r = 4 ∧ (2 : Int) < r.day :=
  relative_day_future (("this Friday").data) (("this").data) (("friday").data)
    ⟨2, ⟨12, 0, 0⟩⟩ 4 (by decide) (Or.inr rfl) (by decide)

/-- C1: whenever a date and a time-of-day are both resolved, the emitted
instant is the naive combination, plus exactly 7 days exactly when the
combination is strictly earlier than the reference instant and the date
phrase does not contain the substring `next` (case-insensitively); the
correction is a one-shot `+7` and is never iterated. -/
theorem rollover_once (dp : DP) (d : Str) (tp : Option Str) (now pd : PyDateTime)
    (tt : Tod)
    (hd : parseWithBase dp (some d) now = some pd)
    (ht : resolveTime dp tp = some tt) :
    normalize dp (some d) tp now =
      .ok ⟨pd.day +
            (if dtLt ⟨pd.day, tt⟩ now = true ∧
                containsSub (("next").data) (pyLower d) = false
             then 7 else 0),
           formatHHMM tt, ("Asia/Kolkata").data⟩ NORMALIZATION_CONFIDENCE := by
  have hne : d.isEmpty = false := by
    cases hde : d.isEmpty with
    | false => rfl
    | true => simp [parseWithBase, hde] at hd
  cases h1 : dtLt ⟨pd.day, tt⟩ now <;>
    cases h2 : containsSub (("next").data) (pyLower d) <;>
      simp [normalize, applyRollover, ht, hd, noNextCond, hne, h1, h2, addDays]

/-- Witness for `rollover_once`, exercising the rollover branch: the date
phrase resolves to yesterday (day -1 against reference day 0), the time
phrase is absent, and the output lands 7 days after the naive combination. -/
theorem rollover_once_witness :
    normalize dpYesterday (some (("yesterday").data)) none ⟨0, ⟨12, 0, 0⟩⟩ =
      .ok ⟨6, ("09:00").data, ("Asia/Kolkata").data⟩ NORMALIZATION_CONFIDENCE := by
  have h := rollover_once dpYesterday (("yesterday").data) none ⟨0, ⟨12, 0, 0⟩⟩
    ⟨-1, ⟨0, 0, 0⟩⟩ ⟨9, 0, 0⟩ (by decide) (by decide)
  rw [h]
  decide

/-- C4: a present but unparseable time phrase (both the primary parser and
the settings-free fallback fail) yields `Invalid time format`, whatever the
date phrase is — the time error is reported first even when the date phrase
is absent or unresolvable. -/
theorem time_error_priority (dp : DP) (d : Option Str) (tp : Str)
    (now : PyDateTime)
    (h0 : tp.isEmpty = false)
    (h1 : parseTime tp = none)
    (h2 : dp.parseBare tp = none) :
    normalize dp d (some tp) now = .clarify (("Invalid time format").data) := by
  simp [normalize, resolveTime, h0, h1, h2]

/-- Witness for `time_error_priority`: `whenever` with an absent date. -/
theorem time_error_priority_witness :
    (("whenever").data : Str).isEmpty = false ∧
    parseTime (("whenever").data) = none ∧
    dpNone.parseBare (("whenever").data) = none ∧
    normalize dpNone none (some (("whenever").data)) ⟨0, ⟨12, 0, 0⟩⟩ =
      .clarify (("Invalid time format").data) :=
  ⟨by decide, by decide, by decide,
    time_error_priority dpNone none (("whenever").data) ⟨0, ⟨12, 0, 0⟩⟩
      (by decide) (by decide) (by decide)⟩

/-- Oracle that answers only the (never queried) phrase `other`, used to
show `normalize` depends on the external capability only at the phrases it
actually queries. -/
def dpOther : DP :=
  ⟨fun p _ => if p = ("other").data then some ⟨5, ⟨0, 0, 0⟩⟩ else none,
   fun _ _ => none, fun _ => none⟩

/-- Counterexample to C5 as stated: the source `normalize(date_phrase,
time_phrase)` has no reference-instant parameter — it reads
`datetime.now(KOLKATA)` inside (line 93).  Two calls with identical explicit
inputs but different ambient-clock readings return different outputs, so the
reference instant is not an explicit input and the output is read off the
ambient clock inside the core. -/
theorem ambient_clock_counterexample :
    normalize dpNone (some (("next monday").data)) (some (("3pm").data))
        ⟨0, ⟨12, 0, 0⟩⟩ ≠
      normalize dpNone (some (("next monday").data)) (some (("3pm").data))
        ⟨1, ⟨12, 0, 0⟩⟩ := by
  decide

/-- C5 (amended): modelling the ambient-clock reading of source line 93 as
an explicit parameter, `normalize` is deterministic — its output is fully
determined by the two phrases, the clock reading, and the external parser's
responses to the phrases it actually queries; there is no hidden mutable
state.  Two oracles agreeing at the queried phrases give identical output. -/
theorem normalize_deterministic (dp1 dp2 : DP) (d tp : Str) (now : PyDateTime)
    (hdef : dp1.parseDefault d now = dp2.parseDefault d now)
    (hdmy : dp1.parseDMY d now = dp2.parseDMY d now)
    (hbare : dp1.parseBare tp = dp2.parseBare tp) :
    normalize dp1 (some d) (some tp) now = normalize dp2 (some d) (some tp) now := by
  have hpwb : parseWithBase dp1 (some d) now = parseWithBase dp2 (some d) now := by
    simp only [parseWithBase, hdef, hdmy]
  have hrt : resolveTime dp1 (some tp) = resolveTime dp2 (some tp) := by
    simp only [resolveTime, hbare]
  simp only [normalize, hpwb, hrt]

/-- Witness for `normalize_deterministic`: two different oracles that agree
at the queried phrases produce identical outputs. -/
theorem normalize_deterministic_witness :
    dpNone.parseDefault (("tomorrow").data) ⟨0, ⟨12, 0, 0⟩⟩ =
        dpOther.parseDefault (("tomorrow").data) ⟨0, ⟨12, 0, 0⟩⟩ ∧
    dpNone.parseDMY (("tomorrow").data) ⟨0, ⟨12, 0, 0⟩⟩ =
        dpOther.parseDMY (("tomorrow").data) ⟨0, ⟨12, 0, 0⟩⟩ ∧
    dpNone.parseBare (("3pm").data) = dpOther.parseBare (("3pm").data) ∧
    normalize dpNone (some (("tomorrow").data)) (some (("3pm").data))
        ⟨0, ⟨12, 0, 0⟩⟩ =
      normalize dpOther (some (("tomorrow").data)) (some (("3pm").data))
        ⟨0, ⟨12, 0, 0⟩⟩ :=
  ⟨by decide, by decide, by decide,
    normalize_deterministic dpNone dpOther (("tomorrow").data) (("3pm").data)
      ⟨0, ⟨12, 0, 0⟩⟩ (by decide) (by decide) (by decide)⟩

/-- The rollover step only adds whole days: the time of day is untouched. -/
theorem applyRollover_tod (dP : Option Str) (now x : PyDateTime) :
    (applyRollover dP now x).tod = x.tod := by
  unfold applyRollover
  split_ifs <;> rfl

/-- C9: the rollover only moves the calendar date — the emitted `time` field
is always the resolved time-of-day (the 09:00 default when the phrase is
absent), rendered by `strftime("%H:%M")`, whether or not 7 days were added. -/
theorem time_field_frame (dp : DP) (d t : Option Str) (now : PyDateTime)
    (p : NormalizedPayload) (c : Rat)
    (h : normalize dp d t now = .ok p c) :
    ∃ tt, resolveTime dp t = some tt ∧ p.time = formatHHMM tt := by
  cases hrt : resolveTime dp t with
  | none => simp [normalize, hrt] at h
  | some tt =>
    cases hpd : parseWithBase dp d now with
    | none => simp [normalize, hrt, hpd] at h
    | some pd =>
      refine ⟨tt, rfl, ?_⟩
      simp only [normalize, hrt, hpd] at h
      rw [NormOutput.ok.injEq] at h
      obtain ⟨hpay, -⟩ := h
      rw [← hpay]
      exact congrArg formatHHMM (applyRollover_tod d now ⟨pd.day, tt⟩)

/-- Witness for `time_field_frame`: a normalized output whose time field is
the parsed `3pm` rendered as `15:00`. -/
theorem time_field_frame_witness :
    ∃ tt, resolveTime dpNone (some (("3pm").data)) = some tt ∧
      (NormalizedPayload.mk 7 (("15:00").data) (("Asia/Kolkata").data)).time =
        formatHHMM tt :=
  time_field_frame dpNone (some (("this monday").data)) (some (("3pm").data))
    ⟨0, ⟨12, 0, 0⟩⟩ ⟨7, ("15:00").data, ("Asia/Kolkata").data⟩
    NORMALIZATION_CONFIDENCE (by decide)

/-- The guardrail on a clarification outcome: the reason passes through. -/
theorem applyGuardrails_clarify (ocr : OcrResult) (er : EntitiesResult)
    (m : Str) :
    applyGuardrailsAndBuild ocr er (NormOutput.clarify m).toResult =
      .clarify (some m) := by
  simp [applyGuardrailsAndBuild, NormOutput.toResult]

/-- The guardrail on a success outcome with a truthy department. -/
theorem applyGuardrails_ok_dep (ocr : OcrResult) (er : EntitiesResult)
    (p : NormalizedPayload) (c : Rat) (dep : Str)
    (hdep : er.department = some dep) (hne : dep.isEmpty = false) :
    applyGuardrailsAndBuild ocr er (NormOutput.ok p c).toResult =
      .ok dep p.date p.time p.tz := by
  simp [applyGuardrailsAndBuild, NormOutput.toResult, hdep, hne]

/-- The guardrail on a success outcome with a falsy department. -/
theorem applyGuardrails_ok_nodep (ocr : OcrResult) (er : EntitiesResult)
    (p : NormalizedPayload) (c : Rat)
    (hdep : truthy er.department = false) :
    applyGuardrailsAndBuild ocr er (NormOutput.ok p c).toResult =
      .clarify (some (("Ambiguous or missing department").data)) := by
  cases hd : er.department with
  | none => simp [applyGuardrailsAndBuild, NormOutput.toResult, hd]
  | some dep =>
    rw [hd] at hdep
    simp only [truthy, Bool.not_eq_false'] at hdep
    simp [applyGuardrailsAndBuild, NormOutput.toResult, hd, hdep]

/-- C6: on a genuine normalization outcome the guardrail propagates a
clarification reason unchanged, clarifies `Ambiguous or missing department`
when the category is absent (Python-falsy: missing or empty — the spec's
design notes subsume the empty string under "absent"), and otherwise emits
`Ok` with the category and the normalized date, time and timezone; nothing
else (in particular the OCR result and the confidences) is inspected. -/
theorem guardrail_decision (ocr : OcrResult) (er : EntitiesResult)
    (o : NormOutput) :
    applyGuardrailsAndBuild ocr er o.toResult =
      match o with
      | .clarify m => .clarify (some m)
      | .ok p _ =>
        match er.department with
        | some dep =>
          if dep.isEmpty then
            .clarify (some (("Ambiguous or missing department").data))
          else .ok dep p.date p.time p.tz
        | none => .clarify (some (("Ambiguous or missing department").data))
      := by
  cases o with
  | clarify m => simp [applyGuardrailsAndBuild, NormOutput.toResult]
  | ok p c =>
    cases hdep : er.department with
    | none => simp [applyGuardrailsAndBuild, NormOutput.toResult, hdep]
    | some dep => simp [applyGuardrailsAndBuild, NormOutput.toResult, hdep]

/-- The success equation of `normalize`: with a resolved time and date, the
output is the rolled-over combination. -/
theorem normalize_ok_eq (dp : DP) (d t : Option Str) (now : PyDateTime)
    (tt : Tod) (pd : PyDateTime)
    (hrt : resolveTime dp t = some tt)
    (hpd : parseWithBase dp d now = some pd) :
    normalize dp d t now =
      .ok ⟨(applyRollover d now ⟨pd.day, tt⟩).day,
           formatHHMM (applyRollover d now ⟨pd.day, tt⟩).tod,
           ("Asia/Kolkata").data⟩ NORMALIZATION_CONFIDENCE := by
  simp only [normalize, hrt, hpd]

/-- Every output of `normalize` is a success or carries one of the two
clarification messages of source lines 109 and 114. -/
theorem normalize_messages (dp : DP) (d t : Option Str) (now : PyDateTime) :
    (∃ p c, normalize dp d t now = .ok p c) ∨
      normalize dp d t now = .clarify (("Invalid time format").data) ∨
      normalize dp d t now = .clarify (("Invalid or missing date").data) := by
  cases hrt : resolveTime dp t with
  | none => right; left; simp [normalize, hrt]
  | some tt =>
    cases hpd : parseWithBase dp d now with
    | none => right; right; simp [normalize, hrt, hpd]
    | some pd => exact Or.inl ⟨_, _, normalize_ok_eq dp d t now tt pd hrt hpd⟩

/-- C10: every `normalize` output has exactly one of the two shapes — a
clarification with status `needs_clarification` and a non-empty message, or
a record carrying a full normalized payload — and consequently the
guardrail's `Ambiguous or missing date/time` fallback branch can never fire
on an output produced by `normalize`. -/
theorem normalize_output_invariant (dp : DP) (d t : Option Str)
    (now : PyDateTime) :
    ((∃ m, normalize dp d t now = .clarify m ∧ m ≠ []) ∨
      (∃ p c, normalize dp d t now = .ok p c)) ∧
    ((normalize dp d t now).toResult.status =
        some (("needs_clarification").data) ∨
      (∃ p, (normalize dp d t now).toResult.normalized = some p)) ∧
    (∀ ocr er, applyGuardrailsAndBuild ocr er (normalize dp d t now).toResult ≠
        .clarify (some (("Ambiguous or missing date/time").data))) := by
  rcases normalize_messages dp d t now with ⟨p, c, h⟩ | h | h
  · refine ⟨Or.inr ⟨p, c, h⟩, Or.inr ⟨p, by rw [h]; rfl⟩, ?_⟩
    intro ocr er
    rw [h]
    cases hdt : truthy er.department with
    | false => rw [applyGuardrails_ok_nodep ocr er p c hdt]; simp
    | true =>
      cases hdep : er.department with
      | none => rw [hdep] at hdt; exact absurd hdt (by decide)
      | some dep =>
        have hne : dep.isEmpty = false := by
          rw [hdep] at hdt
          simpa [truthy, Bool.not_eq_true'] using hdt
        rw [applyGuardrails_ok_dep ocr er p c dep hdep hne]
        simp
  · refine ⟨Or.inl ⟨_, h, by decide⟩, Or.inl (by rw [h]; rfl), ?_⟩
    intro ocr er
    rw [h, applyGuardrails_clarify]
    simp
  · refine ⟨Or.inl ⟨_, h, by decide⟩, Or.inl (by rw [h]; rfl), ?_⟩
    intro ocr er
    rw [h, applyGuardrails_clarify]
    simp

/-- The composed core computation as the service layer invokes it
(`main.py` lines 93-96): entity fields feed `normalize`, whose output feeds
`apply_guardrails_and_build` together with the OCR and entity records. -/
def pipelineResult (dp : DP) (ocr : OcrResult) (ents : Entities) (conf : Rat)
    (now : PyDateTime) : FinalResult :=
  applyGuardrailsAndBuild ocr ⟨some ents, conf⟩
    (normalize dp ents.date_phrase ents.time_phrase now).toResult

/-- C8: for every combination of present, absent or malformed date phrase,
time phrase and category, the composed normalization-and-guardrail
computation is total and returns a well-formed result — a clarification
with a non-empty reason, or an `Ok` appointment record. -/
theorem core_total (dp : DP) (ocr : OcrResult) (ents : Entities) (conf : Rat)
    (now : PyDateTime) :
    (∃ m, pipelineResult dp ocr ents conf now = .clarify (some m) ∧ m ≠ []) ∨
      (∃ dep date timeStr tz,
        pipelineResult dp ocr ents conf now = .ok dep date timeStr tz) := by
  unfold pipelineResult
  have hdE : (⟨some ents, conf⟩ : EntitiesResult).department = ents.department :=
    rfl
  rcases normalize_messages dp ents.date_phrase ents.time_phrase now
    with ⟨p, c, h⟩ | h | h
  · rw [h]
    cases hdt : truthy (⟨some ents, conf⟩ : EntitiesResult).department with
    | false =>
      rw [applyGuardrails_ok_nodep ocr _ p c hdt]
      exact Or.inl ⟨_, rfl, by decide⟩
    | true =>
      cases hdep : (⟨some ents, conf⟩ : EntitiesResult).department with
      | none => rw [hdep] at hdt; exact absurd hdt (by decide)
      | some dep =>
        have hne : dep.isEmpty = false := by
          rw [hdep] at hdt
          simpa [truthy, Bool.not_eq_true'] using hdt
        rw [applyGuardrails_ok_dep ocr _ p c dep hdep hne]
        exact Or.inr ⟨dep, p.date, p.time, p.tz, rfl⟩
  · rw [h, applyGuardrails_clarify]
    exact Or.inl ⟨_, rfl, by decide⟩
  · rw [h, applyGuardrails_clarify]
    exact Or.inl ⟨_, rfl, by decide⟩

/-- Unpadded 12-hour hour digits, as written in inputs like `3pm`, `12am`. -/
def fmtHour12 (h : Nat) : Str :=
  let h12 := if h % 12 = 0 then 12 else h % 12
  if h12 < 10 then [Nat.digitChar h12] else ['1', Nat.digitChar (h12 - 10)]

/-- The meridiem suffix of a 24-hour hour. -/
def ampmSuffix (h : Nat) : Str := if h < 12 then ("am").data else ("pm").data

/-- The `3pm` input style (hour plus meridiem, no minutes). -/
def fmtStyleA (h : Nat) : Str := fmtHour12 h ++ ampmSuffix h

/-- The `3:30pm` input style (hour, colon, two-digit minute, meridiem). -/
def fmtStyleB (h m : Nat) : Str :=
  fmtHour12 h ++ [':'] ++ twoDigits m ++ ampmSuffix h

/-- The zero-padded 24-hour `15:00` input style. -/
def fmtStyleC (h m : Nat) : Str := twoDigits h ++ [':'] ++ twoDigits m

/-- C7: for every representable time of day, rendering it in each supported
input style and parsing it back with `_parse_time` recovers the same hour
and minute (the minute-less `3pm` style applies to times on the hour). -/
theorem time_roundtrip :
    ∀ h < 24, ∀ m < 60,
      parseTime (fmtStyleC h m) = some ⟨h, m, 0⟩ ∧
      parseTime (fmtStyleB h m) = some ⟨h, m, 0⟩ ∧
      (m = 0 → parseTime (fmtStyleA h) = some ⟨h, 0, 0⟩) := by decide

/-- Witness for `time_roundtrip` at 15:30 and on-the-hour 15:00. -/
theorem time_roundtrip_witness :
    (parseTime (fmtStyleC 15 30) = some ⟨15, 30, 0⟩ ∧
      parseTime (fmtStyleB 15 30) = some ⟨15, 30, 0⟩ ∧
      (30 = 0 → parseTime (fmtStyleA 15) = some ⟨15, 0, 0⟩)) ∧
    (parseTime (fmtStyleA 15) = some ⟨15, 0, 0⟩) :=
  ⟨time_roundtrip 15 (by decide) 30 (by decide),
    (time_roundtrip 15 (by decide) 0 (by decide)).2.2 rfl⟩

end Appt
